import Mathlib

/-!
# Verification of the evtol-tools dimensioned-quantity core

Shallow embedding of `src/evtoltools/common/units/base.py`,
`config.py`, `quantities.py` and the pint-backed registry behaviour the
code relies on.  Numeric payloads are modelled over `ℚ` (exact
arithmetic standing in for IEEE floats); unit conversion is affine:
the base-SI value of a payload `x` tagged with unit `u` is
`u.scale * x + u.offset` (nonzero offsets occur only for the
temperature units `degC` / `degF`).

The external pint engine is modelled by its documented behaviour:
conversion between units requires identical dimensional signatures
(else `DimensionalityError`); unknown unit strings fail with
`UndefinedUnitError`; addition, multiplication and division involving
offset units raise `OffsetUnitCalculusError` (the default registry has
`autoconvert_offset_to_baseunit = False`).
-/

namespace Evtol

/-- Dimensional signature: integer exponents over the base dimensions
(mass, length, time, temperature, electric current). -/
structure Sig where
  dimMass : ℤ
  dimLength : ℤ
  dimTime : ℤ
  dimTemp : ℤ
  dimCurrent : ℤ
deriving DecidableEq

/-- A registry unit: display name, dimensional signature, and the affine
map to base-SI representation (`baseValue = scale * v + offset`). -/
structure UnitDef where
  uname : String
  sig : Sig
  scale : ℚ
  offset : ℚ
deriving DecidableEq

def sigMass : Sig := ⟨1, 0, 0, 0, 0⟩
def sigLength : Sig := ⟨0, 1, 0, 0, 0⟩
def sigTime : Sig := ⟨0, 0, 1, 0, 0⟩
def sigTemp : Sig := ⟨0, 0, 0, 1, 0⟩
def sigVelocity : Sig := ⟨0, 1, -1, 0, 0⟩
def sigForce : Sig := ⟨1, 1, -2, 0, 0⟩
def sigMoment : Sig := ⟨1, 2, -2, 0, 0⟩
def sigPower : Sig := ⟨1, 2, -3, 0, 0⟩
def sigEnergy : Sig := ⟨1, 2, -2, 0, 0⟩
def sigArea : Sig := ⟨0, 2, 0, 0, 0⟩
def sigVolume : Sig := ⟨0, 3, 0, 0, 0⟩
def sigDensity : Sig := ⟨1, -3, 0, 0, 0⟩
def sigPressure : Sig := ⟨1, -1, -2, 0, 0⟩
def sigAngularVelocity : Sig := ⟨0, 0, -1, 0, 0⟩
def sigVoltage : Sig := ⟨1, 2, -3, 0, -1⟩
def sigCurrent : Sig := ⟨0, 0, 0, 0, 1⟩
def sigCapacity : Sig := ⟨0, 0, 1, 0, 1⟩

/-- Mechanical horsepower in watts: 550 ft·lbf/s, exact over `ℚ`. -/
def hpScale : ℚ := 550 * (381 / 1250) * (45359237 / 100000000) * (980665 / 100000)

/-- The modelled slice of the pint unit registry: every canonical SI
unit named in `SI_DEFAULTS` plus the non-canonical units exercised by
the spec (`g`, `lb`, `ft`, `min`, `degC`, `degF`, `ft/s`, `hp`). -/
def unitTable : List UnitDef :=
  [ ⟨"kg", sigMass, 1, 0⟩,
    ⟨"g", sigMass, 1 / 1000, 0⟩,
    ⟨"lb", sigMass, 45359237 / 100000000, 0⟩,
    ⟨"m", sigLength, 1, 0⟩,
    ⟨"ft", sigLength, 381 / 1250, 0⟩,
    ⟨"s", sigTime, 1, 0⟩,
    ⟨"min", sigTime, 60, 0⟩,
    ⟨"K", sigTemp, 1, 0⟩,
    ⟨"degC", sigTemp, 1, 5463 / 20⟩,
    ⟨"degF", sigTemp, 5 / 9, 45967 / 180⟩,
    ⟨"m/s", sigVelocity, 1, 0⟩,
    ⟨"ft/s", sigVelocity, 381 / 1250, 0⟩,
    ⟨"N", sigForce, 1, 0⟩,
    ⟨"N*m", sigMoment, 1, 0⟩,
    ⟨"W", sigPower, 1, 0⟩,
    ⟨"hp", sigPower, hpScale, 0⟩,
    ⟨"J", sigEnergy, 1, 0⟩,
    ⟨"m**2", sigArea, 1, 0⟩,
    ⟨"m**3", sigVolume, 1, 0⟩,
    ⟨"kg/m**3", sigDensity, 1, 0⟩,
    ⟨"Pa", sigPressure, 1, 0⟩,
    ⟨"rad/s", sigAngularVelocity, 1, 0⟩,
    ⟨"V", sigVoltage, 1, 0⟩,
    ⟨"A", sigCurrent, 1, 0⟩,
    ⟨"A*h", sigCapacity, 3600, 0⟩ ]

/-- Unit-string parsing by the registry (`ureg.parse` inside `Q_` /
`.to`); `none` models pint's `UndefinedUnitError`. -/
def parseUnit (s : String) : Option UnitDef :=
  unitTable.find? (fun u => u.uname == s)

/-- The quantity types declared in `quantities.py`, one per
`_quantity_type` key. -/
inductive QType
  | mass | length | time | temperature | velocity | force | moment
  | power | energy | area | volume | density | pressure
  | angularVelocity | voltage | current | capacity
deriving DecidableEq

/-- Table `SI_DEFAULTS` from `config.py`: quantity type to SI unit string. -/
def SI_DEFAULTS : QType → String
  | .mass => "kg"
  | .length => "m"
  | .time => "s"
  | .temperature => "K"
  | .velocity => "m/s"
  | .force => "N"
  | .moment => "N*m"
  | .power => "W"
  | .energy => "J"
  | .area => "m**2"
  | .volume => "m**3"
  | .density => "kg/m**3"
  | .pressure => "Pa"
  | .angularVelocity => "rad/s"
  | .voltage => "V"
  | .current => "A"
  | .capacity => "A*h"

/-- The registry's `UnitDef` for each quantity type's canonical SI unit
(what `parseUnit (SI_DEFAULTS T)` resolves to). -/
def canonUnit : QType → UnitDef
  | .mass => ⟨"kg", sigMass, 1, 0⟩
  | .length => ⟨"m", sigLength, 1, 0⟩
  | .time => ⟨"s", sigTime, 1, 0⟩
  | .temperature => ⟨"K", sigTemp, 1, 0⟩
  | .velocity => ⟨"m/s", sigVelocity, 1, 0⟩
  | .force => ⟨"N", sigForce, 1, 0⟩
  | .moment => ⟨"N*m", sigMoment, 1, 0⟩
  | .power => ⟨"W", sigPower, 1, 0⟩
  | .energy => ⟨"J", sigEnergy, 1, 0⟩
  | .area => ⟨"m**2", sigArea, 1, 0⟩
  | .volume => ⟨"m**3", sigVolume, 1, 0⟩
  | .density => ⟨"kg/m**3", sigDensity, 1, 0⟩
  | .pressure => ⟨"Pa", sigPressure, 1, 0⟩
  | .angularVelocity => ⟨"rad/s", sigAngularVelocity, 1, 0⟩
  | .voltage => ⟨"V", sigVoltage, 1, 0⟩
  | .current => ⟨"A", sigCurrent, 1, 0⟩
  | .capacity => ⟨"A*h", sigCapacity, 3600, 0⟩

/-- Numeric payload of a tagged value: a scalar float or a numpy
array, both over exact rationals. -/
inductive Payload
  | scalar (x : ℚ)
  | arr (xs : List ℚ)
deriving DecidableEq

/-- Elementwise map over a payload (numpy broadcasting of a unary op). -/
def Payload.map (f : ℚ → ℚ) : Payload → Payload
  | .scalar x => .scalar (f x)
  | .arr xs => .arr (xs.map f)

/-- Errors surfaced by the engine and the Python runtime:
pint `DimensionalityError`, pint `UndefinedUnitError`, pint
`OffsetUnitCalculusError`, Python `TypeError` (incl. the language-level
rejection after `NotImplemented`), numpy shape `ValueError`, and Python
`ZeroDivisionError`. -/
inductive Err
  | dimensionality
  | unknownUnit
  | offsetUnitCalculus
  | typeErr
  | valueErr
  | zeroDivision
deriving DecidableEq

/-- A pint quantity: numeric payload tagged with a registry unit. -/
structure TaggedValue where
  payload : Payload
  unit : UnitDef
deriving DecidableEq

/-- The numeric effect of pint's `.to`: re-express the payload of `tv`
in unit `u` (affine in, affine out; elementwise on arrays). -/
def convPayload (tv : TaggedValue) (u : UnitDef) : Payload :=
  tv.payload.map (fun x => (tv.unit.scale * x + tv.unit.offset - u.offset) / u.scale)

/-- pint's `Quantity.to`: succeeds exactly when the dimensional
signatures agree, else raises `DimensionalityError`. -/
def TaggedValue.to (tv : TaggedValue) (u : UnitDef) : Except Err TaggedValue :=
  if tv.unit.sig = u.sig then .ok ⟨convPayload tv u, u⟩ else .error .dimensionality

/-- A `BaseQuantity` instance: the concrete subclass (its
`_quantity_type`) plus the wrapped pint quantity `_quantity`. -/
structure Quantity where
  qtype : QType
  tv : TaggedValue
deriving DecidableEq

/-- The `value` argument of `BaseQuantity.__init__`: either a raw
number/array or an existing pint quantity. -/
inductive InitVal
  | raw (p : Payload)
  | pint (tv : TaggedValue)
deriving DecidableEq

namespace BaseQuantity

/-- Model of `BaseQuantity.__init__(value, unit=None)`: look up the SI unit for
the subclass; a pint-quantity argument is converted straight to SI
(the `unit` argument untouched); a raw value is tagged with `unit`
(defaulting to the SI unit) via `Q_` and then converted to SI. -/
def init (T : QType) (value : InitVal) (unit : Option String) : Except Err Quantity :=
  match parseUnit (SI_DEFAULTS T) with
  | none => .error .unknownUnit
  | some si =>
    match value with
    | .pint tv => (tv.to si).map (fun tv2 => ⟨T, tv2⟩)
    | .raw p =>
      match parseUnit (unit.getD (SI_DEFAULTS T)) with
      | none => .error .unknownUnit
      | some u => ((TaggedValue.mk p u).to si).map (fun tv2 => ⟨T, tv2⟩)

end BaseQuantity

namespace Quantity

/-- Model of `BaseQuantity.__call__(unit)`: convert the wrapped pint quantity
and build a new instance of the same class around the converted value
(via `object.__new__`, so the result is NOT re-normalised to SI). -/
def call (q : Quantity) (uname : String) : Except Err Quantity :=
  match parseUnit uname with
  | none => .error .unknownUnit
  | some u => (q.tv.to u).map (fun tv2 => ⟨q.qtype, tv2⟩)

/-- Model of `BaseQuantity.to(unit)`: delegates to `__call__`. -/
def toUnit (q : Quantity) (uname : String) : Except Err Quantity :=
  q.call uname

/-- The `value` property: raw numeric payload in current units. -/
def value (q : Quantity) : Payload :=
  q.tv.payload

/-- The `units` property: current unit string. -/
def unitsName (q : Quantity) : String :=
  q.tv.unit.uname

/-- The `magnitude` property: `float(np.linalg.norm(...))` for an array
payload, `float(...)` of the raw payload for a scalar (note: no `abs`
in the scalar branch). -/
noncomputable def magnitude (q : Quantity) : ℝ :=
  match q.tv.payload with
  | .scalar x => (x : ℝ)
  | .arr xs => Real.sqrt ((xs.map (fun x => ((x : ℝ)) ^ 2)).sum)

/-- Model of `BaseQuantity.__float__`: convert the wrapped quantity to the SI
default of the subclass and take `float` of its magnitude (`TypeError`
on a non-size-1 array payload). -/
def pyFloat (q : Quantity) : Except Err ℚ :=
  match parseUnit (SI_DEFAULTS q.qtype) with
  | none => .error .unknownUnit
  | some si =>
    match q.tv.to si with
    | .error e => .error e
    | .ok tv2 =>
      match tv2.payload with
      | .scalar x => .ok x
      | .arr _ => .error .typeErr

/-- Model of `BaseQuantity.__hash__`: `hash((self.__class__, float(self)))`.
Modelled by the pair actually hashed, so hash equality is pair
equality. -/
def hashKey (q : Quantity) : Except Err (QType × ℚ) :=
  (q.pyFloat).map (fun x => (q.qtype, x))

end Quantity

/-- pint equality of two quantities: `False` across dimensions,
otherwise compare after converting the right operand into the left
operand's units. -/
def pintEq (tv1 tv2 : TaggedValue) : Bool :=
  decide (tv1.unit.sig = tv2.unit.sig) && decide (convPayload tv2 tv1.unit = tv1.payload)

/-- pint scalar ordering after conversion into the left operand's
units.  `bool()` of an elementwise array comparison is not modelled:
no claim depends on it, and every use below is guarded by the
same-class check that precedes any numeric work. -/
def pintLt (tv1 tv2 : TaggedValue) : Bool :=
  match tv1.payload, convPayload tv2 tv1.unit with
  | .scalar x, .scalar y => decide (x < y)
  | _, _ => false

def pintLe (tv1 tv2 : TaggedValue) : Bool :=
  match tv1.payload, convPayload tv2 tv1.unit with
  | .scalar x, .scalar y => decide (x ≤ y)
  | _, _ => false

/-- A Python operand as seen by the dunder methods: another
`BaseQuantity`, or any non-Quantity object (opaque; built-in values
whose own reflected comparisons with a `BaseQuantity` return
`NotImplemented`). -/
inductive PyVal
  | qty (q : Quantity)
  | nonQty (tag : ℕ)
deriving DecidableEq

namespace Quantity

/-- Model of `BaseQuantity.__eq__`: `NotImplemented` (here `none`) unless the
operand is a `BaseQuantity` of the very same class. -/
def eqMethod (self : Quantity) (other : PyVal) : Option Bool :=
  match other with
  | .qty o => if self.qtype = o.qtype then some (pintEq self.tv o.tv) else none
  | .nonQty _ => none

/-- Model of `BaseQuantity.__lt__`. -/
def ltMethod (self : Quantity) (other : PyVal) : Option Bool :=
  match other with
  | .qty o => if self.qtype = o.qtype then some (pintLt self.tv o.tv) else none
  | .nonQty _ => none

/-- Model of `BaseQuantity.__le__`. -/
def leMethod (self : Quantity) (other : PyVal) : Option Bool :=
  match other with
  | .qty o => if self.qtype = o.qtype then some (pintLe self.tv o.tv) else none
  | .nonQty _ => none

/-- Model of `BaseQuantity.__gt__`. -/
def gtMethod (self : Quantity) (other : PyVal) : Option Bool :=
  match other with
  | .qty o => if self.qtype = o.qtype then some (pintLt o.tv self.tv) else none
  | .nonQty _ => none

/-- Model of `BaseQuantity.__ge__`. -/
def geMethod (self : Quantity) (other : PyVal) : Option Bool :=
  match other with
  | .qty o => if self.qtype = o.qtype then some (pintLe o.tv self.tv) else none
  | .nonQty _ => none

/-- Language-level `a == b`: try `a.__eq__(b)`, then the reflected
`b.__eq__(a)`; when both return `NotImplemented`, CPython falls back to
identity comparison.  The fallback is only reached for operands of
different classes or non-Quantity operands, which are never the same
object as `a`, so it yields `False`. -/
def eqDispatch (a : Quantity) (b : PyVal) : Except Err Bool :=
  match a.eqMethod b with
  | some r => .ok r
  | none =>
    match b with
    | .qty o =>
      match o.eqMethod (.qty a) with
      | some r => .ok r
      | none => .ok false
    | .nonQty _ => .ok false

/-- Language-level `a < b`: try `a.__lt__(b)`, then the reflected
`b.__gt__(a)`; when both return `NotImplemented`, Python raises
`TypeError`. -/
def ltDispatch (a : Quantity) (b : PyVal) : Except Err Bool :=
  match a.ltMethod b with
  | some r => .ok r
  | none =>
    match b with
    | .qty o =>
      match o.gtMethod (.qty a) with
      | some r => .ok r
      | none => .error .typeErr
    | .nonQty _ => .error .typeErr

/-- Language-level `a <= b` (reflected operator is `__ge__`). -/
def leDispatch (a : Quantity) (b : PyVal) : Except Err Bool :=
  match a.leMethod b with
  | some r => .ok r
  | none =>
    match b with
    | .qty o =>
      match o.geMethod (.qty a) with
      | some r => .ok r
      | none => .error .typeErr
    | .nonQty _ => .error .typeErr

/-- Language-level `a > b` (reflected operator is `__lt__`). -/
def gtDispatch (a : Quantity) (b : PyVal) : Except Err Bool :=
  match a.gtMethod b with
  | some r => .ok r
  | none =>
    match b with
    | .qty o =>
      match o.ltMethod (.qty a) with
      | some r => .ok r
      | none => .error .typeErr
    | .nonQty _ => .error .typeErr

/-- Language-level `a >= b` (reflected operator is `__le__`). -/
def geDispatch (a : Quantity) (b : PyVal) : Except Err Bool :=
  match a.geMethod b with
  | some r => .ok r
  | none =>
    match b with
    | .qty o =>
      match o.leMethod (.qty a) with
      | some r => .ok r
      | none => .error .typeErr
    | .nonQty _ => .error .typeErr

end Quantity

/-- numpy addition of two payloads: scalars add, a scalar broadcasts
over an array, arrays add elementwise when the shapes match and raise
`ValueError` otherwise. -/
def Payload.add : Payload → Payload → Except Err Payload
  | .scalar x, .scalar y => .ok (.scalar (x + y))
  | .scalar x, .arr ys => .ok (.arr (ys.map (fun y => x + y)))
  | .arr xs, .scalar y => .ok (.arr (xs.map (fun x => x + y)))
  | .arr xs, .arr ys =>
    if xs.length = ys.length then .ok (.arr (List.zipWith (· + ·) xs ys))
    else .error .valueErr

/-- pint addition `q1 + q2`: `DimensionalityError` across dimensions;
`OffsetUnitCalculusError` when an operand carries an offset unit
(degC/degF) under the default registry; otherwise the right operand is
converted into the left operand's units and the payloads add. -/
def pintAdd (tv1 tv2 : TaggedValue) : Except Err TaggedValue :=
  if tv1.unit.sig ≠ tv2.unit.sig then .error .dimensionality
  else if tv1.unit.offset ≠ 0 ∨ tv2.unit.offset ≠ 0 then .error .offsetUnitCalculus
  else (tv1.payload.add (convPayload tv2 tv1.unit)).map (fun p => ⟨p, tv1.unit⟩)

namespace Quantity

/-- Model of `BaseQuantity.__add__`: `NotImplemented` unless the operand is a
`BaseQuantity` of the very same class; otherwise
`self.__class__(self._quantity + other._quantity)` (pint addition, then
re-normalisation to SI by the constructor). -/
def addMethod (self : Quantity) (other : PyVal) : Option (Except Err Quantity) :=
  match other with
  | .qty o =>
    if self.qtype = o.qtype then
      some ((pintAdd self.tv o.tv).bind
        (fun tv2 => BaseQuantity.init self.qtype (.pint tv2) none))
    else none
  | .nonQty _ => none

/-- Language-level `a + b`: try `a.__add__(b)`, then the reflected
`b.__radd__(a)` (which the class defines as `b.__add__(a)`); when both
return `NotImplemented`, Python raises `TypeError`. -/
def addDispatch (a : Quantity) (b : PyVal) : Except Err Quantity :=
  match a.addMethod b with
  | some r => r
  | none =>
    match b with
    | .qty o =>
      match o.addMethod (.qty a) with
      | some r => r
      | none => .error .typeErr
    | .nonQty _ => .error .typeErr

/-- The `type(self) is type(other)` branch of `BaseQuantity.__truediv__`:
pint division (`OffsetUnitCalculusError` on offset units,
`ZeroDivisionError` on a zero scalar divisor), then
`.to("dimensionless")` (which multiplies by the ratio of the two unit
scales) and `float(...)` of the magnitude (`TypeError` on an array). -/
def divSame (a b : Quantity) : Except Err ℚ :=
  if a.tv.unit.offset ≠ 0 ∨ b.tv.unit.offset ≠ 0 then .error .offsetUnitCalculus
  else
    match a.tv.payload, b.tv.payload with
    | .scalar x, .scalar y =>
      if y = 0 then .error .zeroDivision
      else .ok ((x / y) * (a.tv.unit.scale / b.tv.unit.scale))
    | _, _ => .error .typeErr

end Quantity

/-- A heap of live `BaseQuantity` objects, indexed by position: the
explicit-state model used to express that conversion allocates a fresh
object and leaves the receiver untouched. -/
def callStore (st : List Quantity) (i : ℕ) (uname : String) :
    Except Err (List Quantity × ℕ) :=
  match st[i]? with
  | none => .error .typeErr
  | some q => (q.call uname).map (fun q2 => (st ++ [q2], st.length))

/-! ## Registry facts -/

theorem parse_si (T : QType) : parseUnit (SI_DEFAULTS T) = some (canonUnit T) := by
  cases T <;> rfl

theorem parse_mem {s : String} {u : UnitDef} (h : parseUnit s = some u) :
    u ∈ unitTable :=
  List.mem_of_find?_eq_some h

theorem table_scale_ne : ∀ u ∈ unitTable, u.scale ≠ 0 := by
  intro u hu
  fin_cases hu <;> norm_num [hpScale]

theorem canonUnit_mem (T : QType) : canonUnit T ∈ unitTable := by
  cases T <;> simp [canonUnit, unitTable]

theorem canon_offset (T : QType) : (canonUnit T).offset = 0 := by
  cases T <;> rfl

theorem canon_scale_ne (T : QType) : (canonUnit T).scale ≠ 0 :=
  table_scale_ne _ (canonUnit_mem T)

theorem Payload.map_congr_id {f : ℚ → ℚ} (h : ∀ x, f x = x) (p : Payload) :
    p.map f = p := by
  cases p with
  | scalar x => simp [Payload.map, h]
  | arr xs =>
    simp only [Payload.map, Payload.arr.injEq]
    exact List.map_congr_left (fun x _ => h x) |>.trans (List.map_id xs)

/-- Converting a tagged value into its own unit is the identity
(requires a nonzero scale, true of every registry unit). -/
theorem to_self {u : UnitDef} (hs : u.scale ≠ 0) (p : Payload) :
    TaggedValue.to ⟨p, u⟩ u = .ok ⟨p, u⟩ := by
  have h : ∀ x : ℚ, u.scale * x / u.scale = x := fun x => mul_div_cancel_left₀ x hs
  simp [TaggedValue.to, convPayload, Payload.map_congr_id h]

theorem exceptMap_ok {ε α β : Type} (f : α → β) (e : Except ε α) (b : β) :
    e.map f = .ok b ↔ ∃ a, e = .ok a ∧ f a = b := by
  cases e <;> simp [Except.map]

theorem exceptBind_ok {ε α β : Type} (f : α → Except ε β) (e : Except ε α) (b : β) :
    e.bind f = .ok b ↔ ∃ a, e = .ok a ∧ f a = .ok b := by
  cases e <;> simp [Except.bind]

theorem to_eq_ok {tv tv2 : TaggedValue} {u : UnitDef} :
    tv.to u = .ok tv2 ↔ tv.unit.sig = u.sig ∧ tv2 = ⟨convPayload tv u, u⟩ := by
  unfold TaggedValue.to
  split <;> simp_all [eq_comm]

/-- Constructing from a raw payload with no unit argument: the payload
is stored untouched, tagged with the canonical SI unit. -/
theorem init_raw_none (T : QType) (p : Payload) :
    BaseQuantity.init T (.raw p) none = .ok ⟨T, ⟨p, canonUnit T⟩⟩ := by
  simp [BaseQuantity.init, parse_si, to_self (canon_scale_ne T) p, Except.map]

/-- Every successful construction stores the value in the canonical SI
unit of the subclass. -/
theorem init_ok {T : QType} {v : InitVal} {u : Option String} {q : Quantity}
    (h : BaseQuantity.init T v u = .ok q) :
    q.qtype = T ∧ q.tv.unit = canonUnit T := by
  simp only [BaseQuantity.init, parse_si] at h
  cases v with
  | pint tv =>
    rw [exceptMap_ok] at h
    obtain ⟨a, ha, rfl⟩ := h
    obtain ⟨-, rfl⟩ := to_eq_ok.mp ha
    exact ⟨rfl, rfl⟩
  | raw p =>
    cases hp : parseUnit (u.getD (SI_DEFAULTS T)) with
    | none => rw [hp] at h; cases h
    | some u2 =>
      rw [hp, exceptMap_ok] at h
      obtain ⟨a, ha, rfl⟩ := h
      obtain ⟨-, rfl⟩ := to_eq_ok.mp ha
      exact ⟨rfl, rfl⟩

/-- Characterisation of a successful conversion `q(unit)`. -/
theorem call_ok {q q2 : Quantity} {uname : String}
    (h : q.call uname = .ok q2) :
    ∃ U, parseUnit uname = some U ∧ q.tv.unit.sig = U.sig ∧
      q2 = ⟨q.qtype, ⟨convPayload q.tv U, U⟩⟩ := by
  unfold Quantity.call at h
  cases hp : parseUnit uname with
  | none => rw [hp] at h; cases h
  | some U =>
    rw [hp, exceptMap_ok] at h
    obtain ⟨a, ha, rfl⟩ := h
    obtain ⟨hsig, rfl⟩ := to_eq_ok.mp ha
    exact ⟨U, rfl, hsig, rfl⟩

/-- Well-formedness of a reachable quantity: its current unit is a
registry unit whose signature is the canonical signature of its
class. -/
def WF (q : Quantity) : Prop :=
  q.tv.unit ∈ unitTable ∧ q.tv.unit.sig = (canonUnit q.qtype).sig

theorem init_wf {T : QType} {v : InitVal} {u : Option String} {q : Quantity}
    (h : BaseQuantity.init T v u = .ok q) : WF q := by
  obtain ⟨hT, hU⟩ := init_ok h
  exact ⟨hU ▸ canonUnit_mem T, by rw [hU, hT]⟩

theorem call_wf {q q2 : Quantity} {uname : String}
    (hq : WF q) (h : q.call uname = .ok q2) : WF q2 := by
  obtain ⟨U, hU, hsig, rfl⟩ := call_ok h
  exact ⟨parse_mem hU, by simpa [← hsig] using hq.2⟩

/-- The canonical payload of a quantity: its payload re-expressed in
the canonical SI unit of its class (the spec's `canonicalValue`). -/
def canonPayload (q : Quantity) : Payload :=
  convPayload q.tv (canonUnit q.qtype)

/-! ## Claims -/

/-- C10: when the constructor receives a value that is already a pint
quantity, an explicitly supplied `unit` argument is silently ignored:
construction with `(p, u)` equals construction with `p` alone, and
either way the tagged value is converted to the canonical SI unit of
the dimension. -/
theorem c10_pint_ignores_unit (T : QType) (tv : TaggedValue) (u : Option String) :
    BaseQuantity.init T (.pint tv) u = BaseQuantity.init T (.pint tv) none ∧
    BaseQuantity.init T (.pint tv) u =
      (tv.to (canonUnit T)).map (fun tv2 => ⟨T, tv2⟩) := by
  refine ⟨?_, ?_⟩ <;> simp [BaseQuantity.init, parse_si]

/-- C3: a quantity constructed from a raw value with no unit argument
stores that value untouched under the canonical SI unit of its
dimension; and every quantity the constructor produces (from a raw
value with any unit, or from an existing pint quantity) is stored in
the canonical SI unit. -/
theorem c3_canonical_storage :
    (∀ (T : QType) (p : Payload),
      BaseQuantity.init T (.raw p) none = .ok ⟨T, ⟨p, canonUnit T⟩⟩) ∧
    (∀ (T : QType) (v : InitVal) (u : Option String) (q : Quantity),
      BaseQuantity.init T v u = .ok q → q.tv.unit = canonUnit T) :=
  ⟨init_raw_none, fun _ _ _ _ h => (init_ok h).2⟩

theorem c3_canonical_storage_witness :
    BaseQuantity.init .mass (.raw (.scalar 500)) none =
      .ok ⟨.mass, ⟨.scalar 500, canonUnit .mass⟩⟩ ∧
    (⟨.mass, ⟨.scalar 500, canonUnit .mass⟩⟩ : Quantity).tv.unit = canonUnit .mass :=
  ⟨c3_canonical_storage.1 .mass (.scalar 500),
   c3_canonical_storage.2 .mass (.raw (.scalar 500)) none _
     (c3_canonical_storage.1 .mass (.scalar 500))⟩

/-- C4: constructing with a unit whose dimensional signature does not
match the dimension fails with `DimensionalityError`, as does
converting via `__call__`/`to` to an incompatible unit; any compatible
unit raises no error. -/
theorem c4_dimensional_rejection :
    (∀ (T : QType) (p : Payload) (s : String) (U : UnitDef),
      parseUnit s = some U →
      (U.sig ≠ (canonUnit T).sig →
        BaseQuantity.init T (.raw p) (some s) = .error .dimensionality) ∧
      (U.sig = (canonUnit T).sig →
        ∃ q, BaseQuantity.init T (.raw p) (some s) = .ok q)) ∧
    (∀ (q : Quantity) (s : String) (U : UnitDef),
      parseUnit s = some U →
      (U.sig ≠ q.tv.unit.sig → q.call s = .error .dimensionality) ∧
      (U.sig = q.tv.unit.sig → ∃ q2, q.call s = .ok q2)) := by
  constructor
  · intro T p s U hU
    constructor
    · intro hne
      simp [BaseQuantity.init, parse_si, hU, TaggedValue.to, hne, Except.map]
    · intro he
      exact ⟨⟨T, ⟨convPayload ⟨p, U⟩ (canonUnit T), canonUnit T⟩⟩,
        by simp [BaseQuantity.init, parse_si, hU, TaggedValue.to, he, Except.map]⟩
  · intro q s U hU
    constructor
    · intro hne
      simp [Quantity.call, hU, TaggedValue.to, Ne.symm hne, Except.map]
    · intro he
      exact ⟨⟨q.qtype, ⟨convPayload q.tv U, U⟩⟩,
        by simp [Quantity.call, hU, TaggedValue.to, he.symm, Except.map]⟩

theorem c4_dimensional_rejection_witness :
    BaseQuantity.init .mass (.raw (.scalar 10)) (some "m") = .error .dimensionality ∧
    (∃ q2, Quantity.call ⟨.mass, ⟨.scalar 10, canonUnit .mass⟩⟩ "lb" = .ok q2) :=
  ⟨(c4_dimensional_rejection.1 .mass (.scalar 10) "m" ⟨"m", sigLength, 1, 0⟩ rfl).1
      (by decide),
   (c4_dimensional_rejection.2 ⟨.mass, ⟨.scalar 10, canonUnit .mass⟩⟩ "lb"
      ⟨"lb", sigMass, 45359237 / 100000000, 0⟩ rfl).2 (by decide)⟩

/-- C9: converting a quantity to a compatible unit (call syntax, with
`to` delegating to it) allocates a new, separate instance of the same
class whose storage is expressed in the target unit, and leaves the
receiver's stored value and current unit untouched. -/
theorem c9_conversion_frame {st : List Quantity} {i : ℕ} {q : Quantity}
    {uname : String} {U : UnitDef}
    (hi : st[i]? = some q) (hU : parseUnit uname = some U)
    (hsig : q.tv.unit.sig = U.sig) :
    ∃ q2, callStore st i uname = .ok (st ++ [q2], st.length) ∧
      q2.qtype = q.qtype ∧ q2.tv.unit = U ∧
      q2.tv.payload = convPayload q.tv U ∧
      (st ++ [q2])[i]? = some q ∧
      st.length ≠ i ∧
      (st ++ [q2])[st.length]? = some q2 ∧
      q.toUnit uname = q.call uname := by
  have hlt : i < st.length := by
    cases hx : st[i]? with
    | none => rw [hx] at hi; cases hi
    | some a =>
      by_contra hge
      rw [List.getElem?_eq_none (Nat.le_of_not_lt hge)] at hx
      cases hx
  refine ⟨⟨q.qtype, ⟨convPayload q.tv U, U⟩⟩, ?_, rfl, rfl, rfl, ?_, ?_, ?_, rfl⟩
  · simp [callStore, hi, Quantity.call, hU, TaggedValue.to, hsig, Except.map]
  · rw [List.getElem?_append_left hlt]
    exact hi
  · exact (Nat.ne_of_lt hlt).symm
  · exact List.getElem?_concat_length st _

theorem c9_conversion_frame_witness :
    ∃ q2,
      callStore [⟨.mass, ⟨.scalar 1, canonUnit .mass⟩⟩] 0 "g" =
        .ok ([⟨.mass, ⟨.scalar 1, canonUnit .mass⟩⟩] ++ [q2], 1) ∧
      q2.qtype = .mass ∧ q2.tv.unit = ⟨"g", sigMass, 1 / 1000, 0⟩ ∧
      q2.tv.payload =
        convPayload (⟨.scalar 1, canonUnit .mass⟩ : TaggedValue)
          ⟨"g", sigMass, 1 / 1000, 0⟩ ∧
      ([⟨.mass, ⟨.scalar 1, canonUnit .mass⟩⟩] ++ [q2])[0]? =
        some ⟨.mass, ⟨.scalar 1, canonUnit .mass⟩⟩ ∧
      (1 : ℕ) ≠ 0 ∧
      ([⟨.mass, ⟨.scalar 1, canonUnit .mass⟩⟩] ++ [q2])[1]? = some q2 ∧
      Quantity.toUnit ⟨.mass, ⟨.scalar 1, canonUnit .mass⟩⟩ "g" =
        Quantity.call ⟨.mass, ⟨.scalar 1, canonUnit .mass⟩⟩ "g" :=
  @c9_conversion_frame [⟨.mass, ⟨.scalar 1, canonUnit .mass⟩⟩] 0
    ⟨.mass, ⟨.scalar 1, canonUnit .mass⟩⟩ "g" ⟨"g", sigMass, 1 / 1000, 0⟩
    rfl rfl rfl

/-- C8: for every dimension, every registry unit dimensionally
compatible with it and every scalar value `v`, converting `D(v)` to
that unit and back to the canonical SI unit recovers the raw value `v`
exactly (exact rational arithmetic; hence within every floating
tolerance). -/
theorem c8_round_trip {T : QType} {v : ℚ} {uname : String} {U : UnitDef}
    (hU : parseUnit uname = some U) (hsig : U.sig = (canonUnit T).sig) :
    ∃ a b c,
      BaseQuantity.init T (.raw (.scalar v)) none = .ok a ∧
      a.call uname = .ok b ∧
      b.call (SI_DEFAULTS T) = .ok c ∧
      c.value = .scalar v ∧ c.tv.unit = canonUnit T := by
  have hsU : U.scale ≠ 0 := table_scale_ne U (parse_mem hU)
  have hsc : (canonUnit T).scale ≠ 0 := canon_scale_ne T
  have hoc : (canonUnit T).offset = 0 := canon_offset T
  refine ⟨⟨T, ⟨.scalar v, canonUnit T⟩⟩,
    ⟨T, ⟨.scalar (((canonUnit T).scale * v + (canonUnit T).offset - U.offset) /
        U.scale), U⟩⟩,
    ⟨T, ⟨.scalar v, canonUnit T⟩⟩,
    init_raw_none T (.scalar v), ?_, ?_, rfl, rfl⟩
  · simp [Quantity.call, hU, TaggedValue.to, hsig, Except.map, convPayload,
      Payload.map]
  · simp only [Quantity.call, parse_si, TaggedValue.to, hsig, if_pos,
      Except.map, convPayload, Payload.map]
    have : (U.scale * (((canonUnit T).scale * v + (canonUnit T).offset -
        U.offset) / U.scale) + U.offset - (canonUnit T).offset) /
        (canonUnit T).scale = v := by
      rw [mul_div_cancel₀ _ hsU, hoc]
      field_simp
    rw [this]

theorem c8_round_trip_witness :
    ∃ a b c,
      BaseQuantity.init .mass (.raw (.scalar 2)) none = .ok a ∧
      a.call "lb" = .ok b ∧
      b.call (SI_DEFAULTS .mass) = .ok c ∧
      c.value = .scalar 2 ∧ c.tv.unit = canonUnit .mass :=
  @c8_round_trip .mass 2 "lb" ⟨"lb", sigMass, 45359237 / 100000000, 0⟩ rfl (by decide)

/-- C1 (code evaluated at the failing input): `Mass(-10, "kg")` is a
scalar quantity, and its `magnitude` property evaluates to `-10`, not
to the absolute value `10` the spec (and the property's own docstring,
"Vector magnitude (L2 norm)") promise: the scalar branch of the code
returns `float(value)` without taking `abs`. -/
theorem c1_magnitude_scalar_bug :
    ∃ q : Quantity,
      BaseQuantity.init .mass (.raw (.scalar (-10))) (some "kg") = .ok q ∧
      Quantity.magnitude q = -10 ∧ Quantity.magnitude q ≠ 10 := by
  have hkg : parseUnit "kg" = some (canonUnit .mass) := rfl
  refine ⟨⟨.mass, ⟨.scalar (-10), canonUnit .mass⟩⟩, ?_, ?_, ?_⟩
  · simp [BaseQuantity.init, parse_si, hkg,
      to_self (canon_scale_ne .mass) (Payload.scalar (-10)), Except.map]
  · norm_num [Quantity.magnitude]
  · norm_num [Quantity.magnitude]

/-- C2 (counterexample): comparing a Mass against a Length with `==`
does not signal any error: both `__eq__` methods return
`NotImplemented`, and the interpreter's identity fallback produces the
ordinary result value `False`. -/
theorem c2_cross_dimension_eq_returns_false :
    Quantity.eqDispatch ⟨.mass, ⟨.scalar 1, canonUnit .mass⟩⟩
      (.qty ⟨.length, ⟨.scalar 1, canonUnit .length⟩⟩) = .ok false := by
  rfl

/-- C2 (amended): for operands of different Dimension classes and for
non-Quantity operands, every comparison method returns the
`NotImplemented` sentinel; consequently the ordering operators
`<, <=, >, >=` raise `TypeError` at language level, while `==` raises
nothing and evaluates to `False` via the identity fallback. -/
theorem c2_comparison_rejection :
    (∀ a b : Quantity, a.qtype ≠ b.qtype →
      (a.eqMethod (.qty b) = none ∧ a.ltMethod (.qty b) = none ∧
       a.leMethod (.qty b) = none ∧ a.gtMethod (.qty b) = none ∧
       a.geMethod (.qty b) = none) ∧
      (a.ltDispatch (.qty b) = .error .typeErr ∧
       a.leDispatch (.qty b) = .error .typeErr ∧
       a.gtDispatch (.qty b) = .error .typeErr ∧
       a.geDispatch (.qty b) = .error .typeErr) ∧
      a.eqDispatch (.qty b) = .ok false) ∧
    (∀ (a : Quantity) (t : ℕ),
      (a.eqMethod (.nonQty t) = none ∧ a.ltMethod (.nonQty t) = none ∧
       a.leMethod (.nonQty t) = none ∧ a.gtMethod (.nonQty t) = none ∧
       a.geMethod (.nonQty t) = none) ∧
      (a.ltDispatch (.nonQty t) = .error .typeErr ∧
       a.leDispatch (.nonQty t) = .error .typeErr ∧
       a.gtDispatch (.nonQty t) = .error .typeErr ∧
       a.geDispatch (.nonQty t) = .error .typeErr) ∧
      a.eqDispatch (.nonQty t) = .ok false) := by
  constructor
  · intro a b hne
    have hne2 : b.qtype ≠ a.qtype := Ne.symm hne
    simp [Quantity.eqMethod, Quantity.ltMethod, Quantity.leMethod,
      Quantity.gtMethod, Quantity.geMethod, Quantity.eqDispatch,
      Quantity.ltDispatch, Quantity.leDispatch, Quantity.gtDispatch,
      Quantity.geDispatch, hne, hne2]
  · intro a t
    simp [Quantity.eqMethod, Quantity.ltMethod, Quantity.leMethod,
      Quantity.gtMethod, Quantity.geMethod, Quantity.eqDispatch,
      Quantity.ltDispatch, Quantity.leDispatch, Quantity.gtDispatch,
      Quantity.geDispatch]

theorem c2_comparison_rejection_witness :
    ((Quantity.eqMethod ⟨.mass, ⟨.scalar 1, canonUnit .mass⟩⟩
        (.qty ⟨.length, ⟨.scalar 2, canonUnit .length⟩⟩) = none ∧
      Quantity.ltMethod ⟨.mass, ⟨.scalar 1, canonUnit .mass⟩⟩
        (.qty ⟨.length, ⟨.scalar 2, canonUnit .length⟩⟩) = none ∧
      Quantity.leMethod ⟨.mass, ⟨.scalar 1, canonUnit .mass⟩⟩
        (.qty ⟨.length, ⟨.scalar 2, canonUnit .length⟩⟩) = none ∧
      Quantity.gtMethod ⟨.mass, ⟨.scalar 1, canonUnit .mass⟩⟩
        (.qty ⟨.length, ⟨.scalar 2, canonUnit .length⟩⟩) = none ∧
      Quantity.geMethod ⟨.mass, ⟨.scalar 1, canonUnit .mass⟩⟩
        (.qty ⟨.length, ⟨.scalar 2, canonUnit .length⟩⟩) = none) ∧
     (Quantity.ltDispatch ⟨.mass, ⟨.scalar 1, canonUnit .mass⟩⟩
        (.qty ⟨.length, ⟨.scalar 2, canonUnit .length⟩⟩) = .error .typeErr ∧
      Quantity.leDispatch ⟨.mass, ⟨.scalar 1, canonUnit .mass⟩⟩
        (.qty ⟨.length, ⟨.scalar 2, canonUnit .length⟩⟩) = .error .typeErr ∧
      Quantity.gtDispatch ⟨.mass, ⟨.scalar 1, canonUnit .mass⟩⟩
        (.qty ⟨.length, ⟨.scalar 2, canonUnit .length⟩⟩) = .error .typeErr ∧
      Quantity.geDispatch ⟨.mass, ⟨.scalar 1, canonUnit .mass⟩⟩
        (.qty ⟨.length, ⟨.scalar 2, canonUnit .length⟩⟩) = .error .typeErr) ∧
     Quantity.eqDispatch ⟨.mass, ⟨.scalar 1, canonUnit .mass⟩⟩
       (.qty ⟨.length, ⟨.scalar 2, canonUnit .length⟩⟩) = .ok false) ∧
    ((Quantity.eqMethod ⟨.mass, ⟨.scalar 1, canonUnit .mass⟩⟩ (.nonQty 0) = none ∧
      Quantity.ltMethod ⟨.mass, ⟨.scalar 1, canonUnit .mass⟩⟩ (.nonQty 0) = none ∧
      Quantity.leMethod ⟨.mass, ⟨.scalar 1, canonUnit .mass⟩⟩ (.nonQty 0) = none ∧
      Quantity.gtMethod ⟨.mass, ⟨.scalar 1, canonUnit .mass⟩⟩ (.nonQty 0) = none ∧
      Quantity.geMethod ⟨.mass, ⟨.scalar 1, canonUnit .mass⟩⟩ (.nonQty 0) = none) ∧
     (Quantity.ltDispatch ⟨.mass, ⟨.scalar 1, canonUnit .mass⟩⟩ (.nonQty 0) =
        .error .typeErr ∧
      Quantity.leDispatch ⟨.mass, ⟨.scalar 1, canonUnit .mass⟩⟩ (.nonQty 0) =
        .error .typeErr ∧
      Quantity.gtDispatch ⟨.mass, ⟨.scalar 1, canonUnit .mass⟩⟩ (.nonQty 0) =
        .error .typeErr ∧
      Quantity.geDispatch ⟨.mass, ⟨.scalar 1, canonUnit .mass⟩⟩ (.nonQty 0) =
        .error .typeErr) ∧
     Quantity.eqDispatch ⟨.mass, ⟨.scalar 1, canonUnit .mass⟩⟩ (.nonQty 0) =
       .ok false) :=
  ⟨c2_comparison_rejection.1 ⟨.mass, ⟨.scalar 1, canonUnit .mass⟩⟩
     ⟨.length, ⟨.scalar 2, canonUnit .length⟩⟩ (by decide),
   c2_comparison_rejection.2 ⟨.mass, ⟨.scalar 1, canonUnit .mass⟩⟩ 0⟩

/-- C5: two same-dimension quantities with equal canonical values but
different current units compare equal under `==`, and the pairs fed to
`hash` (class, canonical float) coincide; hashing and float coercion
go through the canonical value only. -/
theorem c5_eq_hash_consistency {a b : Quantity} {x y : ℚ}
    (hT : a.qtype = b.qtype) (hwa : WF a) (hwb : WF b)
    (hx : a.tv.payload = .scalar x) (hy : b.tv.payload = .scalar y)
    (hcanon : canonPayload a = canonPayload b)
    (_hunits : a.tv.unit ≠ b.tv.unit) :
    a.eqDispatch (.qty b) = .ok true ∧ a.hashKey = b.hashKey := by
  have hsa : a.tv.unit.scale ≠ 0 := table_scale_ne _ hwa.1
  have hsc : (canonUnit a.qtype).scale ≠ 0 := canon_scale_ne a.qtype
  have hsig : a.tv.unit.sig = b.tv.unit.sig := by rw [hwa.2, hwb.2, hT]
  have hkey : a.tv.unit.scale * x + a.tv.unit.offset =
      b.tv.unit.scale * y + b.tv.unit.offset := by
    have h := hcanon
    simp only [canonPayload, convPayload, hx, hy, Payload.map, ← hT,
      Payload.scalar.injEq] at h
    rw [div_eq_div_iff hsc hsc] at h
    have h2 := mul_right_cancel₀ hsc h
    linarith
  constructor
  · have hval : convPayload b.tv a.tv.unit = Payload.scalar x := by
      simp only [convPayload, hy, Payload.map, Payload.scalar.injEq]
      rw [← hkey, add_sub_cancel_right, mul_div_cancel_left₀ x hsa]
    simp [Quantity.eqDispatch, Quantity.eqMethod, hT, pintEq, hsig, hval, hx]
  · have hAB : (a.tv.unit.scale * x + a.tv.unit.offset -
        (canonUnit a.qtype).offset) / (canonUnit a.qtype).scale =
        (b.tv.unit.scale * y + b.tv.unit.offset -
        (canonUnit a.qtype).offset) / (canonUnit a.qtype).scale := by
      rw [hkey]
    simp [Quantity.hashKey, Quantity.pyFloat, parse_si, TaggedValue.to,
      hwa.2, hwb.2, convPayload, hx, hy, Payload.map, ← hT, hAB]

theorem c5_eq_hash_consistency_witness :
    Quantity.eqDispatch ⟨.mass, ⟨.scalar 1, canonUnit .mass⟩⟩
        (.qty ⟨.mass, ⟨.scalar 1000, ⟨"g", sigMass, 1 / 1000, 0⟩⟩⟩) = .ok true ∧
    Quantity.hashKey ⟨.mass, ⟨.scalar 1, canonUnit .mass⟩⟩ =
      Quantity.hashKey ⟨.mass, ⟨.scalar 1000, ⟨"g", sigMass, 1 / 1000, 0⟩⟩⟩ :=
  c5_eq_hash_consistency rfl ⟨by simp [unitTable, canonUnit], rfl⟩
    ⟨by simp [unitTable], rfl⟩ rfl rfl
    (by norm_num [canonPayload, convPayload, Payload.map, canonUnit])
    (by decide)

/-- C6 (counterexample): a reachable pair of same-Dimension quantities
whose addition is not a Quantity with the canonical-value sum: a
Temperature converted to `degC` added to itself makes the engine raise
`OffsetUnitCalculusError`. -/
theorem c6_add_offset_counterexample :
    ∃ q : Quantity,
      (BaseQuantity.init .temperature (.raw (.scalar 300)) none).bind
        (fun a => a.call "degC") = .ok q ∧
      Quantity.addDispatch q (.qty q) = .error .offsetUnitCalculus := by
  have hdegC : parseUnit "degC" = some ⟨"degC", sigTemp, 1, 5463 / 20⟩ := rfl
  refine ⟨⟨.temperature, ⟨.scalar (537 / 20), ⟨"degC", sigTemp, 1, 5463 / 20⟩⟩⟩,
    ?_, ?_⟩
  · rw [init_raw_none]
    simp [Except.bind, Quantity.call, hdegC, TaggedValue.to, convPayload,
      Payload.map, Except.map, canonUnit]
    norm_num
  · simp [Quantity.addDispatch, Quantity.addMethod, pintAdd, Except.bind]

/-- C6 (amended): for same-Dimension quantities whose current units
are multiplicative (zero offset — true of every quantity still in
canonical SI storage) and carry scalar payloads, `a + b` is a quantity
of the same Dimension whose canonical value is the sum of the two
canonical values; across different Dimension types both `__add__` and
the reflected `__radd__` return `NotImplemented`, so `+` raises
`TypeError`. -/
theorem c6_addition_closure :
    (∀ (a b : Quantity) (x y : ℚ),
      a.qtype = b.qtype → WF a → WF b →
      a.tv.unit.offset = 0 → b.tv.unit.offset = 0 →
      a.tv.payload = .scalar x → b.tv.payload = .scalar y →
      ∃ (c : Quantity) (za zb : ℚ),
        a.addDispatch (.qty b) = .ok c ∧ c.qtype = a.qtype ∧
        canonPayload a = .scalar za ∧ canonPayload b = .scalar zb ∧
        canonPayload c = .scalar (za + zb)) ∧
    (∀ a b : Quantity, a.qtype ≠ b.qtype →
      a.addDispatch (.qty b) = .error .typeErr) := by
  constructor
  · intro a b x y hT hwa hwb hoa hob hx hy
    have hsa : a.tv.unit.scale ≠ 0 := table_scale_ne _ hwa.1
    have hsc : (canonUnit a.qtype).scale ≠ 0 := canon_scale_ne a.qtype
    have hoc := canon_offset a.qtype
    have hsig : a.tv.unit.sig = b.tv.unit.sig := by rw [hwa.2, hwb.2, hT]
    have hadd : pintAdd a.tv b.tv =
        .ok ⟨.scalar (x + b.tv.unit.scale * y / a.tv.unit.scale), a.tv.unit⟩ := by
      simp [pintAdd, hsig, hoa, hob, hx, hy, convPayload, Payload.map,
        Payload.add, Except.map]
    have hinit : BaseQuantity.init a.qtype
        (.pint ⟨.scalar (x + b.tv.unit.scale * y / a.tv.unit.scale), a.tv.unit⟩)
        none =
        .ok ⟨a.qtype, ⟨.scalar ((a.tv.unit.scale *
            (x + b.tv.unit.scale * y / a.tv.unit.scale) + a.tv.unit.offset -
            (canonUnit a.qtype).offset) / (canonUnit a.qtype).scale),
          canonUnit a.qtype⟩⟩ := by
      simp [BaseQuantity.init, parse_si, TaggedValue.to, hwa.2, convPayload,
        Payload.map, Except.map]
    refine ⟨⟨a.qtype, ⟨.scalar ((a.tv.unit.scale *
        (x + b.tv.unit.scale * y / a.tv.unit.scale) + a.tv.unit.offset -
        (canonUnit a.qtype).offset) / (canonUnit a.qtype).scale),
        canonUnit a.qtype⟩⟩,
      a.tv.unit.scale * x / (canonUnit a.qtype).scale,
      b.tv.unit.scale * y / (canonUnit a.qtype).scale, ?_, rfl, ?_, ?_, ?_⟩
    · simp only [Quantity.addDispatch, Quantity.addMethod, if_pos hT, hadd,
        Except.bind, hinit]
    · simp [canonPayload, convPayload, hx, Payload.map, hoa, hoc]
    · simp [canonPayload, convPayload, hy, Payload.map, hob, hoc, ← hT]
    · simp only [canonPayload, convPayload, Payload.map, Payload.scalar.injEq,
        hoc, hoa, sub_zero]
      field_simp
      ring
  · intro a b hne
    simp [Quantity.addDispatch, Quantity.addMethod, hne, Ne.symm hne]

theorem c6_addition_closure_witness :
    (∃ (c : Quantity) (za zb : ℚ),
      Quantity.addDispatch ⟨.mass, ⟨.scalar 1, canonUnit .mass⟩⟩
          (.qty ⟨.mass, ⟨.scalar 2000, ⟨"g", sigMass, 1 / 1000, 0⟩⟩⟩) = .ok c ∧
      c.qtype = .mass ∧
      canonPayload ⟨.mass, ⟨.scalar 1, canonUnit .mass⟩⟩ = .scalar za ∧
      canonPayload ⟨.mass, ⟨.scalar 2000, ⟨"g", sigMass, 1 / 1000, 0⟩⟩⟩ =
        .scalar zb ∧
      canonPayload c = .scalar (za + zb)) ∧
    Quantity.addDispatch ⟨.mass, ⟨.scalar 1, canonUnit .mass⟩⟩
      (.qty ⟨.length, ⟨.scalar 1, canonUnit .length⟩⟩) = .error .typeErr :=
  ⟨c6_addition_closure.1 ⟨.mass, ⟨.scalar 1, canonUnit .mass⟩⟩
     ⟨.mass, ⟨.scalar 2000, ⟨"g", sigMass, 1 / 1000, 0⟩⟩⟩ 1 2000 rfl
     ⟨by simp [unitTable, canonUnit], rfl⟩ ⟨by simp [unitTable], rfl⟩
     rfl rfl rfl rfl,
   c6_addition_closure.2 ⟨.mass, ⟨.scalar 1, canonUnit .mass⟩⟩
     ⟨.length, ⟨.scalar 1, canonUnit .length⟩⟩ (by decide)⟩

/-- C7 (counterexample): a reachable pair of same-Dimension quantities
with nonzero divisor whose quotient is not a float ratio: dividing a
Temperature held in `degF` by itself makes the engine raise
`OffsetUnitCalculusError`. -/
theorem c7_div_offset_counterexample :
    ∃ q : Quantity,
      (BaseQuantity.init .temperature (.raw (.scalar 300)) none).bind
        (fun a => a.call "degF") = .ok q ∧
      q.tv.payload = .scalar (8033 / 100) ∧
      Quantity.divSame q q = .error .offsetUnitCalculus := by
  have hdegF : parseUnit "degF" = some ⟨"degF", sigTemp, 5 / 9, 45967 / 180⟩ := rfl
  refine ⟨⟨.temperature, ⟨.scalar (8033 / 100), ⟨"degF", sigTemp, 5 / 9, 45967 / 180⟩⟩⟩,
    ?_, rfl, ?_⟩
  · rw [init_raw_none]
    simp [Except.bind, Quantity.call, hdegF, TaggedValue.to, convPayload,
      Payload.map, Except.map, canonUnit]
    norm_num
  · simp [Quantity.divSame]

/-- C7 (amended): for same-Dimension quantities with scalar payloads,
multiplicative (zero-offset) current units and a nonzero divisor, the
same-class branch of `__truediv__` returns a plain dimensionless float
(not a Quantity) equal to the ratio of the two canonical values. -/
theorem c7_same_dimension_division :
    ∀ (a b : Quantity) (x y : ℚ),
      a.qtype = b.qtype → WF a → WF b →
      a.tv.unit.offset = 0 → b.tv.unit.offset = 0 →
      a.tv.payload = .scalar x → b.tv.payload = .scalar y → y ≠ 0 →
      ∃ za zb : ℚ,
        canonPayload a = .scalar za ∧ canonPayload b = .scalar zb ∧
        Quantity.divSame a b = .ok (za / zb) := by
  intro a b x y hT hwa hwb hoa hob hx hy hy0
  have hsb : b.tv.unit.scale ≠ 0 := table_scale_ne _ hwb.1
  have hsc : (canonUnit a.qtype).scale ≠ 0 := canon_scale_ne a.qtype
  have hoc := canon_offset a.qtype
  refine ⟨a.tv.unit.scale * x / (canonUnit a.qtype).scale,
    b.tv.unit.scale * y / (canonUnit a.qtype).scale, ?_, ?_, ?_⟩
  · simp [canonPayload, convPayload, hx, Payload.map, hoa, hoc]
  · simp [canonPayload, convPayload, hy, Payload.map, hob, hoc, ← hT]
  · have hval : a.tv.unit.scale * x / (canonUnit a.qtype).scale /
        (b.tv.unit.scale * y / (canonUnit a.qtype).scale) =
        x / y * (a.tv.unit.scale / b.tv.unit.scale) := by
      field_simp
      ring
    simp [Quantity.divSame, hoa, hob, hx, hy, hy0, hval]

theorem c7_same_dimension_division_witness :
    ∃ za zb : ℚ,
      canonPayload ⟨.mass, ⟨.scalar 30, canonUnit .mass⟩⟩ = .scalar za ∧
      canonPayload ⟨.mass, ⟨.scalar 10, canonUnit .mass⟩⟩ = .scalar zb ∧
      Quantity.divSame ⟨.mass, ⟨.scalar 30, canonUnit .mass⟩⟩
        ⟨.mass, ⟨.scalar 10, canonUnit .mass⟩⟩ = .ok (za / zb) :=
  c7_same_dimension_division ⟨.mass, ⟨.scalar 30, canonUnit .mass⟩⟩
    ⟨.mass, ⟨.scalar 10, canonUnit .mass⟩⟩ 30 10 rfl
    ⟨by simp [unitTable, canonUnit], rfl⟩ ⟨by simp [unitTable, canonUnit], rfl⟩
    rfl rfl rfl rfl (by norm_num)

end Evtol
